import Mathlib

/-!
Shallow embedding of `src/ncbi_server.py` (mcp-ncbi-fetcher).

The Python module performs HTTP GETs against the NCBI E-utilities service and
does small JSON-field extractions.  We model:

* JSON values as an inductive `Json` (objects as association lists with the
  keys in insertion order, numbers as `Int`); this is the image of the Python
  `json` module (dict / list / str / int / bool / None).
* the network as an explicit environment `Http : String → Except String Response`
  mapping a request URL to either a transport failure (`httpx` raising, modelled
  as `Except.error`) or a `Response` carrying the HTTP status code, the body
  text (`.text`) and the JSON parse of the body (`.json()`, `none` when the
  body is not valid JSON so that `.json()` raises a decode error).
  Note `httpx` does not raise on a non-2xx status: `.text` / `.json()` are
  available on any received response, so a received response is `Except.ok`
  whatever its status.
* Python exceptions as `PyErr`; the message strings rendered by `errMsg`
  approximate the CPython wording (only the prefix of the rendered error line is
  ever relied upon).
* each operation returns its result (`Except PyErr String`, an error meaning
  the Python coroutine raised) together with the ordered list of request URLs
  it issued.
-/

inductive Json where
  | null : Json
  | bool (b : Bool) : Json
  | num (n : Int) : Json
  | str (s : String) : Json
  | arr (xs : List Json) : Json
  | obj (fields : List (String × Json)) : Json
deriving Repr

/-- Python exceptions that the embedded code can raise. -/
inductive PyErr where
  | keyError (k : String) : PyErr
  | typeError (m : String) : PyErr
  | attributeError (m : String) : PyErr
  | jsonDecodeError : PyErr
  | netError (m : String) : PyErr
deriving Repr, DecidableEq

/-- Rendering `str(e)` of a caught exception; the wording approximates
CPython (`str` of a `KeyError` is the `repr` of the key). -/
def errMsg : PyErr → String
  | .keyError k => "\x27" ++ k ++ "\x27"
  | .typeError m => m
  | .attributeError m => m
  | .jsonDecodeError => "Expecting value: line 1 column 1 (char 0)"
  | .netError m => m

/-- An HTTP response as `httpx` delivers it: status code, body text, and the
JSON parse of the body (`none` when the body is not valid JSON, in which case
`.json()` raises). -/
structure Response where
  status : Nat
  text : String
  jsonVal : Option Json

/-- The network: maps a request URL to a transport failure or a response. -/
def Http : Type := String → Except String Response

/-- Model of `response.json()`: the parsed body, or a decode error. -/
def Response.json (r : Response) : Except PyErr Json :=
  match r.jsonVal with
  | none => .error .jsonDecodeError
  | some j => .ok j

/-- First-match association-list lookup; Python dicts have unique keys, which
`Json.obj` values are assumed to satisfy. -/
def dictLookup : List (String × Json) → String → Option Json
  | [], _ => none
  | (k, v) :: rest, key => if k = key then some v else dictLookup rest key

/-- Python truthiness of a JSON-shaped value (`bool(x)`). -/
def truthy : Json → Bool
  | .null => false
  | .bool b => b
  | .num n => n ≠ 0
  | .str s => s ≠ ""
  | .arr xs => !xs.isEmpty
  | .obj fs => !fs.isEmpty

/-- Python `x.get(key, default)`: only dicts have `.get`; anything else raises
`AttributeError`. -/
def pyGet (j : Json) (key : String) (default : Json) : Except PyErr Json :=
  match j with
  | .obj fs => .ok ((dictLookup fs key).getD default)
  | _ => .error (.attributeError ("object has no attribute " ++ "\x27" ++ "get" ++ "\x27"))

/-- Python `x.get(key)` with no default: `none` models the `None` result. -/
def pyGetOpt (j : Json) (key : String) : Except PyErr (Option Json) :=
  match j with
  | .obj fs => .ok (dictLookup fs key)
  | _ => .error (.attributeError ("object has no attribute " ++ "\x27" ++ "get" ++ "\x27"))

/-- Python `x[key]` for a string key: dict lookup (`KeyError` when absent); indexing a
list or string by a string, or subscripting anything else, raises `TypeError`. -/
def pyIndex (j : Json) (key : String) : Except PyErr Json :=
  match j with
  | .obj fs =>
    match dictLookup fs key with
    | some v => .ok v
    | none => .error (.keyError key)
  | .arr _ => .error (.typeError "list indices must be integers or slices, not str")
  | .str _ => .error (.typeError "string indices must be integers")
  | _ => .error (.typeError "object is not subscriptable")

/-- Truthiness of the value of `d.get(...).get(...)` where the inner result may
be Python `None` (absent key). -/
def pyTruthyOpt : Option Json → Bool
  | none => false
  | some j => truthy j

/-- Line 20 of the source: `search_data.get("esearchresult", {}).get("idlist")`.
Raises when `search_data` (or the value under `"esearchresult"`) is not a dict. -/
def idlistOfSearch (search_data : Json) : Except PyErr (Option Json) := do
  let esr ← pyGet search_data "esearchresult" (Json.obj [])
  pyGetOpt esr "idlist"

/-- The elements of a Python list when they are all strs (a join raises
`TypeError` on the first non-str element). -/
def strSeqOfList : List Json → Option (List String)
  | [] => some []
  | .str s :: rest => (strSeqOfList rest).map (fun ss => s :: ss)
  | _ :: _ => none

/-- Comma-joining `id_list` and iterating `for id in id_list` both see it as a sequence
of strings when the join succeeds: a str yields its characters, a list must
contain only strs (else `TypeError` from `join`), a dict yields its keys in
order; ints, bools and `None` are not iterable / not joinable (`TypeError`).
Both functions of the source join `id_list` before iterating it, so the join
succeeding is exactly what makes the later per-element view well defined. -/
def pyStrSeq (j : Json) : Except PyErr (List String) :=
  match j with
  | .str s => .ok (s.data.map (fun c => String.mk [c]))
  | .arr xs =>
    match strSeqOfList xs with
    | some ss => .ok ss
    | none => .error (.typeError "sequence item: expected str instance")
  | .obj fs => .ok (fs.map (fun kv => kv.1))
  | _ => .error (.typeError "can only join an iterable")

/-- The `base_url` local of both source functions. -/
def base_url : String := "https://eutils.ncbi.nlm.nih.gov/entrez/eutils"

/-- Source line 16: the esearch URL of `fetch_from_ncbi` (accession-field term). -/
def esearchAccURL (db accession : String) : String :=
  base_url ++ "/esearch.fcgi?db=" ++ db ++ "&term=" ++ accession ++ "[accn]&retmode=json"

/-- Source line 26: the efetch URL (`joined` is the comma-joined id list). -/
def efetchURL (db joined rettype : String) : String :=
  base_url ++ "/efetch.fcgi?db=" ++ db ++ "&id=" ++ joined ++ "&rettype=" ++ rettype
    ++ "&retmode=text"

/-- Source line 86: the esearch URL of `search_ncbi` (capped at 10 results). -/
def esearchQueryURL (db query : String) : String :=
  base_url ++ "/esearch.fcgi?db=" ++ db ++ "&term=" ++ query ++ "&retmode=json&retmax=10"

/-- Source line 96: the esummary URL (`joined` is the comma-joined id list). -/
def esummaryURL (db joined : String) : String :=
  base_url ++ "/esummary.fcgi?db=" ++ db ++ "&id=" ++ joined ++ "&retmode=json"

/-- Embedding of `fetch_from_ncbi(db, accession, rettype)` (source lines 10–29): esearch for
the accession, early return of the "No ... record found" string on a falsy id
list, else efetch of the comma-joined ids in text mode, returning `.text`
verbatim.  Second component: the URLs requested, in order. -/
def fetch_from_ncbi (http : Http) (db : String) (accession : String)
    (rettype : String := "fasta") : Except PyErr String × List String :=
  let search_url := esearchAccURL db accession
  match http search_url with
  | .error e => (.error (.netError e), [search_url])
  | .ok search_response =>
    match search_response.json with
    | .error e => (.error e, [search_url])
    | .ok search_data =>
      match idlistOfSearch search_data with
      | .error e => (.error e, [search_url])
      | .ok v =>
        if pyTruthyOpt v then
          match (do
              let esr ← pyIndex search_data "esearchresult"
              pyIndex esr "idlist") with
          | .error e => (.error e, [search_url])
          | .ok id_list =>
            match pyStrSeq id_list with
            | .error e => (.error e, [search_url])
            | .ok ids =>
              let fetch_url := efetchURL db (String.intercalate "," ids) rettype
              match http fetch_url with
              | .error e => (.error (.netError e), [search_url, fetch_url])
              | .ok fetch_response => (.ok fetch_response.text, [search_url, fetch_url])
        else
          (.ok ("No " ++ db ++ " record found for accession " ++ accession), [search_url])

mutual

/-- Python `repr` of a JSON-shaped value (used by `str` on lists / dicts).
Strings are single-quoted; escaping inside the string is not modelled. -/
def pyRepr : Json → String
  | .null => "None"
  | .bool b => if b then "True" else "False"
  | .num n => toString n
  | .str s => "\x27" ++ s ++ "\x27"
  | .arr xs => "[" ++ String.intercalate ", " (pyReprList xs) ++ "]"
  | .obj fs => "\x7b" ++ String.intercalate ", " (pyReprFields fs) ++ "\x7d"

def pyReprList : List Json → List String
  | [] => []
  | x :: xs => pyRepr x :: pyReprList xs

def pyReprFields : List (String × Json) → List String
  | [] => []
  | (k, v) :: fs => ("\x27" ++ k ++ "\x27: " ++ pyRepr v) :: pyReprFields fs

end

/-- Python `str` of a JSON-shaped value, as an f-string renders it. -/
def pyStr : Json → String
  | .str s => s
  | j => pyRepr j

/-- The regex check of line 111, pattern `[A-Z]{1,3}_?[0-9]+` anchored at the start:
one to three capital letters, an optional underscore, then at least one digit.
The three character classes are disjoint, so the greedy match needs no
backtracking: the pattern matches iff the leading run of capitals has length
one to three and is followed by an optional underscore and a digit. -/
def accMatch (s : String) : Bool :=
  let cs := s.data
  let caps := cs.takeWhile Char.isUpper
  let k := caps.length
  let rest := cs.drop k
  decide (1 ≤ k) && decide (k ≤ 3) &&
    (match rest with
     | [] => false
     | c :: rest2 =>
       if c = '_' then
         match rest2 with
         | [] => false
         | d :: _ => d.isDigit
       else c.isDigit)

/-- Source lines 104–105: `next((item["content"] for item in
doc_sum.get("accessionversion", []) if isinstance(item, dict) and "content" in
item), "Unknown")`.  Iterating a str yields characters and a dict yields keys
(never dicts, so the filter skips them); an int / bool / `None` value is not
iterable (`TypeError`). -/
def firstContent (av : Json) : Except PyErr Json :=
  match av with
  | .arr items =>
    .ok ((items.findSome? (fun item =>
      match item with
      | .obj fs => dictLookup fs "content"
      | _ => none)).getD (.str "Unknown"))
  | .str _ => .ok (.str "Unknown")
  | .obj _ => .ok (.str "Unknown")
  | _ => .error (.typeError "object is not iterable")

/-- Source lines 108–113: scan the fields `"caption"`, `"title"`,
`"accession"` in order over the fields of `doc_sum`; the first one present
whose value is a str matching the accession pattern replaces `accession`
(`break`); a present but non-matching field does not stop the scan. -/
def scanFields : List String → List (String × Json) → Json → Json
  | [], _, accession => accession
  | field :: restFields, fs, accession =>
    match dictLookup fs field with
    | some (.str s) =>
      if accMatch s then .str s else scanFields restFields fs accession
    | some _ => scanFields restFields fs accession
    | none => scanFields restFields fs accession

/-- Source lines 104–113: the whole accession extraction for one `doc_sum`.
`doc_sum` is a dict whenever the fallback scan runs (its `.get` on line 104
succeeded), so `scanFields` receives its fields. -/
def extractAccession (doc_sum : Json) : Except PyErr Json := do
  let av ← pyGet doc_sum "accessionversion" (Json.arr [])
  let accession ← firstContent av
  let unknown := match accession with | .str s => s = "Unknown" | _ => false
  if !truthy accession || unknown then
    match doc_sum with
    | .obj fs => pure (scanFields ["caption", "title", "accession"] fs accession)
    | _ => pure accession
  else
    pure accession

/-- Source lines 103–116, the fallible body of the per-identifier `try`:
look the identifier up in `summary_data["result"]`, extract an accession and a
title, render the result line. -/
def processIdCore (summary_data : Json) (id : String) : Except PyErr String := do
  let result ← pyIndex summary_data "result"
  let doc_sum ← pyIndex result id
  let accession ← extractAccession doc_sum
  let title ← pyGet doc_sum "title" (.str "No title available")
  pure ("ID: " ++ id ++ ", Accession: " ++ pyStr accession ++ ", Title: " ++ pyStr title)

/-- Source lines 101–118: one loop iteration, with the `except` clause folded
in — a raised exception becomes the inline error line for this identifier. -/
def processId (summary_data : Json) (id : String) : String :=
  match processIdCore summary_data id with
  | .ok line => line
  | .error e => "Error processing ID " ++ id ++ ": " ++ errMsg e

/-- Embedding of `search_ncbi(query, db)` (source lines 72–120): esearch capped at 10
results, early "No results found" return on a falsy id list, else one batched
esummary request and one rendered segment per identifier, joined by blank
lines.  Second component: the URLs requested, in order. -/
def search_ncbi (http : Http) (query : String) (db : String := "nucleotide") :
    Except PyErr String × List String :=
  let search_url := esearchQueryURL db query
  match http search_url with
  | .error e => (.error (.netError e), [search_url])
  | .ok search_response =>
    match search_response.json with
    | .error e => (.error e, [search_url])
    | .ok search_data =>
      match idlistOfSearch search_data with
      | .error e => (.error e, [search_url])
      | .ok v =>
        if pyTruthyOpt v then
          match (do
              let esr ← pyIndex search_data "esearchresult"
              pyIndex esr "idlist") with
          | .error e => (.error e, [search_url])
          | .ok id_list =>
            match pyStrSeq id_list with
            | .error e => (.error e, [search_url])
            | .ok ids =>
              let summary_url := esummaryURL db (String.intercalate "," ids)
              match http summary_url with
              | .error e => (.error (.netError e), [search_url, summary_url])
              | .ok summary_response =>
                match summary_response.json with
                | .error e => (.error e, [search_url, summary_url])
                | .ok summary_data =>
                  (.ok (String.intercalate "\n\n" (ids.map (processId summary_data))),
                   [search_url, summary_url])
        else
          (.ok ("No results found for " ++ "\x27" ++ query ++ "\x27" ++ " in " ++ db
            ++ " database"), [search_url])

/-- Embedding of `get_nucleotide_sequence` (source lines 32–42); the `ctx.info` logging call
carries no control flow and is not modelled. -/
def get_nucleotide_sequence (http : Http) (accession : String) :
    Except PyErr String × List String :=
  fetch_from_ncbi http "nucleotide" accession "fasta"

/-- Embedding of `get_protein_sequence` (source lines 45–55). -/
def get_protein_sequence (http : Http) (accession : String) :
    Except PyErr String × List String :=
  fetch_from_ncbi http "protein" accession "fasta"

/-- Embedding of `get_sequence_metadata` (source lines 58–69): forwards to
`fetch_from_ncbi` with rettype `"gb"` when `db == "nucleotide"`, else `"gp"`. -/
def get_sequence_metadata (http : Http) (accession : String)
    (db : String := "nucleotide") : Except PyErr String × List String :=
  fetch_from_ncbi http db accession (if db = "nucleotide" then "gb" else "gp")

/-- Embedding of `help()` (source lines 123–151): synchronous and pure — it takes no
arguments, touches no network or other I/O, and returns this fixed literal
(the embedding as a plain constant is exact). -/
def help : String :=
  "\nNCBI Sequence Fetcher - Available Tools:\n\n1. get_nucleotide_sequence(accession)\n   Fetch nucleotide sequence from NCBI in FASTA format\n   Example accessions: NM_000546, NG_005905, NC_000023\n\n2. get_protein_sequence(accession)\n   Fetch protein sequence from NCBI in FASTA format\n   Example accessions: NP_000537, P53_HUMAN\n\n3. get_sequence_metadata(accession, db=\"nucleotide\")\n   Get detailed metadata about a sequence in GenBank/GenPept format\n   Databases: \"nucleotide\" or \"protein\"\n\n4. search_ncbi(query, db=\"nucleotide\")\n   Search NCBI databases and get a list of matching entries\n   Example queries: \"BRCA1\", \"p53 tumor suppressor\", \"coronavirus spike\"\n   Databases: \"nucleotide\", \"protein\", \"gene\", etc.\n\nExample usage:\n- \"Fetch the protein sequence for P53_HUMAN\"\n- \"Get the nucleotide sequence for accession NM_000546\"\n- \"Search NCBI for BRCA1 gene sequences\"\n- \"Get detailed metadata for the TP53 gene\"\n"

/-- Does `needle` occur as a contiguous run inside `hay`? -/
def listInfixOf (needle : List Char) : List Char → Bool
  | [] => needle.isPrefixOf []
  | c :: rest => needle.isPrefixOf (c :: rest) || listInfixOf needle rest

/-- Substring containment on the character lists of two strings. -/
def containsName (hay needle : String) : Bool :=
  listInfixOf needle.data hay.data

lemma strSeqOfList_map_str (ids : List String) :
    strSeqOfList (ids.map Json.str) = some ids := by
  induction ids with
  | nil => rfl
  | cons a as ih => simp [strSeqOfList, ih]

lemma pyStrSeq_arr_str (ids : List String) :
    pyStrSeq (Json.arr (ids.map Json.str)) = .ok ids := by
  simp [pyStrSeq, strSeqOfList_map_str]

lemma truthy_arr_of_ne (xs : List Json) (h : xs ≠ []) :
    truthy (Json.arr xs) = true := by
  cases xs with
  | nil => exact absurd rfl h
  | cons x xs => simp [truthy]

lemma idlistOfSearch_found (sf ef : List (String × Json)) (idl : Json)
    (hsf : dictLookup sf "esearchresult" = some (Json.obj ef))
    (hef : dictLookup ef "idlist" = some idl) :
    idlistOfSearch (Json.obj sf) = .ok (some idl) := by
  simp [idlistOfSearch, pyGet, pyGetOpt, hsf, hef, Bind.bind, Except.bind]

/-- The whole success path of `fetch_from_ncbi` up to the efetch request: with
a search response whose JSON carries a non-empty all-str id list, the function
reduces to the match on the efetch GET. -/
lemma fetch_from_ncbi_fetch_step (http : Http) (db accession rettype : String)
    (sresp : Response) (sf ef : List (String × Json)) (ids : List String)
    (hids : ids ≠ [])
    (hsearch : http (esearchAccURL db accession) = .ok sresp)
    (hjson : sresp.jsonVal = some (Json.obj sf))
    (hsf : dictLookup sf "esearchresult" = some (Json.obj ef))
    (hef : dictLookup ef "idlist" = some (Json.arr (ids.map Json.str))) :
    fetch_from_ncbi http db accession rettype =
      (match http (efetchURL db (String.intercalate "," ids) rettype) with
       | .error e => (.error (.netError e),
           [esearchAccURL db accession, efetchURL db (String.intercalate "," ids) rettype])
       | .ok fresp => (.ok fresp.text,
           [esearchAccURL db accession, efetchURL db (String.intercalate "," ids) rettype])) := by
  have htr : truthy (Json.arr (ids.map Json.str)) = true :=
    truthy_arr_of_ne _ (by simpa using hids)
  simp [fetch_from_ncbi, hsearch, Response.json, hjson,
    idlistOfSearch_found sf ef _ hsf hef, pyTruthyOpt, htr, pyIndex, hsf, hef,
    pyStrSeq_arr_str, Bind.bind, Except.bind]

/-- Claim C1: for every accession whose search step returns at least one identifier,
`fetch_from_ncbi` issues exactly one fetch request — the efetch URL with the
identifiers comma-joined in the order the search returned them and
`retmode=text` — and returns the fetch response body verbatim. -/
theorem fetch_from_ncbi_single_fetch (http : Http) (db accession rettype : String)
    (sresp fresp : Response) (sf ef : List (String × Json)) (ids : List String)
    (hids : ids ≠ [])
    (hsearch : http (esearchAccURL db accession) = .ok sresp)
    (hjson : sresp.jsonVal = some (Json.obj sf))
    (hsf : dictLookup sf "esearchresult" = some (Json.obj ef))
    (hef : dictLookup ef "idlist" = some (Json.arr (ids.map Json.str)))
    (hfetch : http (efetchURL db (String.intercalate "," ids) rettype) = .ok fresp) :
    fetch_from_ncbi http db accession rettype =
      (.ok fresp.text,
       [esearchAccURL db accession, efetchURL db (String.intercalate "," ids) rettype]) := by
  rw [fetch_from_ncbi_fetch_step http db accession rettype sresp sf ef ids hids
    hsearch hjson hsf hef, hfetch]

/-- Claim C2: for every accession whose search step yields an empty or absent
identifier list, `fetch_from_ncbi` returns the string
`"No {db} record found for accession {accession}"` as a successful result and
issues no fetch request (the trace is the single esearch URL). -/
theorem fetch_from_ncbi_not_found (http : Http) (db accession rettype : String)
    (sresp : Response) (search_data : Json) (v : Option Json)
    (hsearch : http (esearchAccURL db accession) = .ok sresp)
    (hjson : sresp.jsonVal = some search_data)
    (hidl : idlistOfSearch search_data = .ok v)
    (hfalsy : pyTruthyOpt v = false) :
    fetch_from_ncbi http db accession rettype =
      (.ok ("No " ++ db ++ " record found for accession " ++ accession),
       [esearchAccURL db accession]) := by
  simp [fetch_from_ncbi, hsearch, Response.json, hjson, hidl, hfalsy]

/-- The success path of `search_ncbi` up to the esummary request: with a
search response carrying a non-empty all-str id list, the function reduces to
the match on the esummary GET. -/
lemma search_ncbi_summary_step (http : Http) (query db : String)
    (sresp : Response) (sf ef : List (String × Json)) (ids : List String)
    (hids : ids ≠ [])
    (hsearch : http (esearchQueryURL db query) = .ok sresp)
    (hjson : sresp.jsonVal = some (Json.obj sf))
    (hsf : dictLookup sf "esearchresult" = some (Json.obj ef))
    (hef : dictLookup ef "idlist" = some (Json.arr (ids.map Json.str))) :
    search_ncbi http query db =
      (match http (esummaryURL db (String.intercalate "," ids)) with
       | .error e => (.error (.netError e),
           [esearchQueryURL db query, esummaryURL db (String.intercalate "," ids)])
       | .ok mresp =>
         match mresp.jsonVal with
         | none => (.error .jsonDecodeError,
             [esearchQueryURL db query, esummaryURL db (String.intercalate "," ids)])
         | some summary_data =>
           (.ok (String.intercalate "\n\n" (ids.map (processId summary_data))),
            [esearchQueryURL db query, esummaryURL db (String.intercalate "," ids)])) := by
  have htr : truthy (Json.arr (ids.map Json.str)) = true :=
    truthy_arr_of_ne _ (by simpa using hids)
  simp only [search_ncbi, hsearch, Response.json, hjson,
    idlistOfSearch_found sf ef _ hsf hef, pyTruthyOpt, htr, pyIndex, hsf, hef,
    pyStrSeq_arr_str, Bind.bind, Except.bind, if_true]
  cases http (esummaryURL db (String.intercalate "," ids)) with
  | error e => rfl
  | ok mresp =>
    cases h : mresp.jsonVal with
    | none => simp [Response.json, h]
    | some summary_data => simp [Response.json, h]

/-- Claim C3: for every query whose search step returns N ≥ 1 identifiers,
`search_ncbi` returns one rendered segment per identifier — N segments, in the
order of the identifier list — joined by blank-line separators `"\n\n"`. -/
theorem search_ncbi_segments (http : Http) (query db : String)
    (sresp mresp : Response) (sf ef : List (String × Json)) (ids : List String)
    (summary_data : Json)
    (hids : ids ≠ [])
    (hsearch : http (esearchQueryURL db query) = .ok sresp)
    (hjson : sresp.jsonVal = some (Json.obj sf))
    (hsf : dictLookup sf "esearchresult" = some (Json.obj ef))
    (hef : dictLookup ef "idlist" = some (Json.arr (ids.map Json.str)))
    (hsum : http (esummaryURL db (String.intercalate "," ids)) = .ok mresp)
    (hjson2 : mresp.jsonVal = some summary_data) :
    search_ncbi http query db =
      (.ok (String.intercalate "\n\n" (ids.map (processId summary_data))),
       [esearchQueryURL db query, esummaryURL db (String.intercalate "," ids)])
    ∧ (ids.map (processId summary_data)).length = ids.length := by
  refine ⟨?_, ids.length_map _⟩
  rw [search_ncbi_summary_step http query db sresp sf ef ids hids hsearch hjson hsf hef,
    hsum]
  simp [hjson2]

/-- Claim C7: for every query whose search step yields an empty or absent identifier
list, `search_ncbi` returns the string
the no-results string (quoting the query, naming the database) as a successful result and
issues no summary request (the trace is the single esearch URL). -/
theorem search_ncbi_no_results (http : Http) (query db : String)
    (sresp : Response) (search_data : Json) (v : Option Json)
    (hsearch : http (esearchQueryURL db query) = .ok sresp)
    (hjson : sresp.jsonVal = some search_data)
    (hidl : idlistOfSearch search_data = .ok v)
    (hfalsy : pyTruthyOpt v = false) :
    search_ncbi http query db =
      (.ok ("No results found for " ++ "\x27" ++ query ++ "\x27" ++ " in " ++ db
        ++ " database"),
       [esearchQueryURL db query]) := by
  simp [search_ncbi, hsearch, Response.json, hjson, hidl, hfalsy]

/-- Claim C4: in `search_ncbi`, a per-identifier failure during summary extraction
only affects the segment of that identifier: the run still succeeds with one
segment per identifier, the segment of the failing identifier is the inline
`"Error processing ID {id}: {e}"` line, and every segment is a function of its
own identifier alone — the remaining identifiers are still processed. -/
theorem search_ncbi_error_isolation (http : Http) (query db : String)
    (sresp mresp : Response) (sf ef : List (String × Json)) (ids : List String)
    (summary_data : Json) (i : Nat) (e : PyErr)
    (hids : ids ≠ [])
    (hsearch : http (esearchQueryURL db query) = .ok sresp)
    (hjson : sresp.jsonVal = some (Json.obj sf))
    (hsf : dictLookup sf "esearchresult" = some (Json.obj ef))
    (hef : dictLookup ef "idlist" = some (Json.arr (ids.map Json.str)))
    (hsum : http (esummaryURL db (String.intercalate "," ids)) = .ok mresp)
    (hjson2 : mresp.jsonVal = some summary_data)
    (hi : i < ids.length)
    (herr : processIdCore summary_data (ids.get ⟨i, hi⟩) = .error e) :
    (search_ncbi http query db).1 =
      .ok (String.intercalate "\n\n" (ids.map (processId summary_data)))
    ∧ (ids.map (processId summary_data)).get ⟨i, by simpa using hi⟩ =
        "Error processing ID " ++ ids.get ⟨i, hi⟩ ++ ": " ++ errMsg e
    ∧ ∀ j (hj : j < (ids.map (processId summary_data)).length),
        (ids.map (processId summary_data)).get ⟨j, hj⟩ =
          processId summary_data (ids.get ⟨j, by simpa using hj⟩) := by
  refine ⟨?_, ?_, ?_⟩
  · rw [search_ncbi_summary_step http query db sresp sf ef ids hids hsearch hjson hsf hef,
      hsum]
    simp [hjson2]
  · simp only [List.get_eq_getElem] at herr
    simp [List.get_eq_getElem, List.getElem_map, processId, herr]
  · intro j hj
    simp [List.get_eq_getElem, List.getElem_map]

/-- The fallback field scan is first-match over the ordered field list. -/
lemma scanFields_eq_findSome (fields : List String) (fs : List (String × Json))
    (accession : Json) :
    scanFields fields fs accession =
      match fields.findSome? (fun field =>
        match dictLookup fs field with
        | some (Json.str s) => if accMatch s then some s else none
        | _ => none) with
      | some s => Json.str s
      | none => accession := by
  induction fields with
  | nil => rfl
  | cons f rest ih =>
    rw [List.findSome?_cons]
    cases hd : dictLookup fs f with
    | none => simp [scanFields, hd, ih]
    | some v =>
      cases v with
      | str s =>
        cases hm : accMatch s with
        | false => simp [scanFields, hd, hm, ih]
        | true => simp [scanFields, hd, hm]
      | null => simp [scanFields, hd, ih]
      | bool b => simp [scanFields, hd, ih]
      | num n => simp [scanFields, hd, ih]
      | arr xs => simp [scanFields, hd, ih]
      | obj ofs => simp [scanFields, hd, ih]

/-- Claim C5: when the summary record has no `"accessionversion"` field, the
extracted accession is the first-match scan of the fields `"caption"`,
`"title"`, `"accession"` in that fixed order, accepting the first str value
matching the accession pattern (1–3 capitals, optional underscore, digits) and
keeping `"Unknown"` when none matches; in particular a record whose
`"caption"` matches the pattern yields exactly that caption value. -/
theorem extractAccession_fallback (fs : List (String × Json)) (c : String)
    (hav : dictLookup fs "accessionversion" = none) :
    extractAccession (Json.obj fs) =
      .ok (match ["caption", "title", "accession"].findSome? (fun field =>
          match dictLookup fs field with
          | some (Json.str s) => if accMatch s then some s else none
          | _ => none) with
        | some s => Json.str s
        | none => Json.str "Unknown")
    ∧ (dictLookup fs "caption" = some (Json.str c) → accMatch c = true →
        extractAccession (Json.obj fs) = .ok (Json.str c)) := by
  have main : extractAccession (Json.obj fs) =
      .ok (scanFields ["caption", "title", "accession"] fs (Json.str "Unknown")) := by
    simp [extractAccession, pyGet, hav, firstContent, truthy, Bind.bind, Except.bind,
      pure, Except.pure]
  refine ⟨?_, fun hcap hmat => ?_⟩
  · rw [main, scanFields_eq_findSome]
  · rw [main, scanFields_eq_findSome]
    simp [List.findSome?_cons, hcap, hmat]

/-- Counterexample for C6: the HTTP status is never inspected, so a non-2xx fetch
response is not an error — here the efetch GET answers with status 404 and
body `"Bad Request: efetch error page"`, and `fetch_from_ncbi` returns that
body as a successful result. -/
theorem fetch_from_ncbi_returns_non2xx_body :
    fetch_from_ncbi
      (fun u =>
        if u = esearchAccURL "nucleotide" "X1" then
          .ok ⟨200, "", some (Json.obj [("esearchresult",
            Json.obj [("idlist", Json.arr [Json.str "11"])])])⟩
        else .ok ⟨404, "Bad Request: efetch error page", none⟩)
      "nucleotide" "X1" "fasta" =
      (.ok "Bad Request: efetch error page",
       [esearchAccURL "nucleotide" "X1", efetchURL "nucleotide" "11" "fasta"]) := by
  rfl

/-- Two network environments that agree on everything except the HTTP status
codes of the responses they deliver. -/
def agreeUpToStatus (http1 http2 : Http) : Prop :=
  ∀ u, match http1 u, http2 u with
    | .error e1, .error e2 => e1 = e2
    | .ok r1, .ok r2 => r1.text = r2.text ∧ r1.jsonVal = r2.jsonVal
    | _, _ => False

lemma fetch_from_ncbi_statusless (http http2 : Http)
    (hagree : agreeUpToStatus http http2) (db accession rettype : String) :
    fetch_from_ncbi http db accession rettype =
      fetch_from_ncbi http2 db accession rettype := by
  have h1 := hagree (esearchAccURL db accession)
  simp only [fetch_from_ncbi]
  cases e1 : http (esearchAccURL db accession) with
  | error s1 =>
    cases e2 : http2 (esearchAccURL db accession) with
    | error s2 =>
      rw [e1, e2] at h1
      simp only at h1
      simp [h1]
    | ok r2 =>
      rw [e1, e2] at h1
      simp only at h1
  | ok r1 =>
    cases e2 : http2 (esearchAccURL db accession) with
    | error s2 =>
      rw [e1, e2] at h1
      simp only at h1
    | ok r2 =>
      rw [e1, e2] at h1
      simp only at h1
      obtain ⟨ht, hj⟩ := h1
      simp only [Response.json, hj]
      cases hsd : r2.jsonVal with
      | none => rfl
      | some sd =>
        dsimp only
        cases hidl : idlistOfSearch sd with
        | error e => rfl
        | ok v =>
          dsimp only
          cases htv : pyTruthyOpt v with
          | false => simp
          | true =>
            rw [if_pos rfl, if_pos rfl]
            cases hix : (do
                let esr ← pyIndex sd "esearchresult"
                pyIndex esr "idlist" : Except PyErr Json) with
            | error e => rfl
            | ok id_list =>
              dsimp only
              cases hss : pyStrSeq id_list with
              | error e => rfl
              | ok ids =>
                dsimp only
                have h2 := hagree (efetchURL db (String.intercalate "," ids) rettype)
                cases f1 : http (efetchURL db (String.intercalate "," ids) rettype) with
                | error t1 =>
                  cases f2 : http2 (efetchURL db (String.intercalate "," ids) rettype) with
                  | error t2 =>
                    rw [f1, f2] at h2
                    simp only at h2
                    simp [h2]
                  | ok q2 =>
                    rw [f1, f2] at h2
                    simp only at h2
                | ok q1 =>
                  cases f2 : http2 (efetchURL db (String.intercalate "," ids) rettype) with
                  | error t2 =>
                    rw [f1, f2] at h2
                    simp only at h2
                  | ok q2 =>
                    rw [f1, f2] at h2
                    simp only at h2
                    simp [h2.1]

lemma search_ncbi_statusless (http http2 : Http)
    (hagree : agreeUpToStatus http http2) (query db : String) :
    search_ncbi http query db = search_ncbi http2 query db := by
  have h1 := hagree (esearchQueryURL db query)
  simp only [search_ncbi]
  cases e1 : http (esearchQueryURL db query) with
  | error s1 =>
    cases e2 : http2 (esearchQueryURL db query) with
    | error s2 =>
      rw [e1, e2] at h1
      simp only at h1
      simp [h1]
    | ok r2 =>
      rw [e1, e2] at h1
      simp only at h1
  | ok r1 =>
    cases e2 : http2 (esearchQueryURL db query) with
    | error s2 =>
      rw [e1, e2] at h1
      simp only at h1
    | ok r2 =>
      rw [e1, e2] at h1
      simp only at h1
      obtain ⟨ht, hj⟩ := h1
      simp only [Response.json, hj]
      cases hsd : r2.jsonVal with
      | none => rfl
      | some sd =>
        dsimp only
        cases hidl : idlistOfSearch sd with
        | error e => rfl
        | ok v =>
          dsimp only
          cases htv : pyTruthyOpt v with
          | false => simp
          | true =>
            rw [if_pos rfl, if_pos rfl]
            cases hix : (do
                let esr ← pyIndex sd "esearchresult"
                pyIndex esr "idlist" : Except PyErr Json) with
            | error e => rfl
            | ok id_list =>
              dsimp only
              cases hss : pyStrSeq id_list with
              | error e => rfl
              | ok ids =>
                dsimp only
                have h2 := hagree (esummaryURL db (String.intercalate "," ids))
                cases f1 : http (esummaryURL db (String.intercalate "," ids)) with
                | error t1 =>
                  cases f2 : http2 (esummaryURL db (String.intercalate "," ids)) with
                  | error t2 =>
                    rw [f1, f2] at h2
                    simp only at h2
                    simp [h2]
                  | ok q2 =>
                    rw [f1, f2] at h2
                    simp only at h2
                | ok q1 =>
                  cases f2 : http2 (esummaryURL db (String.intercalate "," ids)) with
                  | error t2 =>
                    rw [f1, f2] at h2
                    simp only at h2
                  | ok q2 =>
                    rw [f1, f2] at h2
                    simp only at h2
                    simp only [Response.json, h2.2]

/-- Claim C6 amended: network failures (the transport raising) propagate as
unhandled errors from every HTTP GET of both operations, but the HTTP status
code of a received response is never inspected — the result of either
operation is unchanged under any change of status codes, so a non-2xx
response is processed exactly like a 2xx one (and its body can be returned as
a successful result, see the counterexample). -/
theorem net_errors_propagate_status_never_read (http http2 : Http)
    (db accession rettype query : String) (e : String)
    (hagree : agreeUpToStatus http http2) :
    (http (esearchAccURL db accession) = .error e →
      fetch_from_ncbi http db accession rettype =
        (.error (.netError e), [esearchAccURL db accession]))
    ∧ (http (esearchQueryURL db query) = .error e →
      search_ncbi http query db =
        (.error (.netError e), [esearchQueryURL db query]))
    ∧ (∀ sresp sf ef ids, ids ≠ [] →
        http (esearchAccURL db accession) = .ok sresp →
        sresp.jsonVal = some (Json.obj sf) →
        dictLookup sf "esearchresult" = some (Json.obj ef) →
        dictLookup ef "idlist" = some (Json.arr (ids.map Json.str)) →
        http (efetchURL db (String.intercalate "," ids) rettype) = .error e →
        fetch_from_ncbi http db accession rettype =
          (.error (.netError e),
           [esearchAccURL db accession, efetchURL db (String.intercalate "," ids) rettype]))
    ∧ fetch_from_ncbi http db accession rettype = fetch_from_ncbi http2 db accession rettype
    ∧ search_ncbi http query db = search_ncbi http2 query db := by
  refine ⟨fun h => ?_, fun h => ?_, ?_, ?_, ?_⟩
  · simp [fetch_from_ncbi, h]
  · simp [search_ncbi, h]
  · intro sresp sf ef ids hids hsearch hjson hsf hef hferr
    rw [fetch_from_ncbi_fetch_step http db accession rettype sresp sf ef ids hids
      hsearch hjson hsf hef, hferr]
  · exact fetch_from_ncbi_statusless http http2 hagree db accession rettype
  · exact search_ncbi_statusless http http2 hagree query db

/-- Counterexample for C8: a search response whose JSON lacks the top-level
`"esearchresult"` key does not make the operation fail — the defensive
`.get("esearchresult", {}).get("idlist")` chain turns it into the ordinary
"no results" success string, and no further request is issued. -/
theorem missing_esearchresult_is_no_results :
    search_ncbi (fun _ => .ok ⟨200, "\x7b\x7d", some (Json.obj [])⟩) "BRCA1" "nucleotide" =
      (.ok ("No results found for " ++ "\x27" ++ "BRCA1" ++ "\x27"
        ++ " in nucleotide database"),
       [esearchQueryURL "nucleotide" "BRCA1"]) := by
  rfl

/-- Claim C8 amended: a missing top-level `"esearchresult"` key is handled locally,
not propagated: both operations return their "not found" / "no results"
success string and issue no second request.  Failures outside the reach of the
defensive `.get` chain do propagate: a body that is not valid JSON raises the
decode error, and a top-level JSON value that is not a dict raises
`AttributeError` from `.get`, in both operations. -/
theorem missing_esearchresult_handled_locally (http : Http)
    (db accession query : String) (sresp : Response) (sf : List (String × Json))
    (hmiss : dictLookup sf "esearchresult" = none) :
    (http (esearchAccURL db accession) = .ok sresp →
      sresp.jsonVal = some (Json.obj sf) →
      fetch_from_ncbi http db accession "fasta" =
        (.ok ("No " ++ db ++ " record found for accession " ++ accession),
         [esearchAccURL db accession]))
    ∧ (http (esearchQueryURL db query) = .ok sresp →
      sresp.jsonVal = some (Json.obj sf) →
      search_ncbi http query db =
        (.ok ("No results found for " ++ "\x27" ++ query ++ "\x27" ++ " in " ++ db
          ++ " database"),
         [esearchQueryURL db query]))
    ∧ (http (esearchAccURL db accession) = .ok sresp →
      sresp.jsonVal = none →
      (fetch_from_ncbi http db accession "fasta").1 = .error .jsonDecodeError)
    ∧ (http (esearchQueryURL db query) = .ok sresp →
      sresp.jsonVal = none →
      (search_ncbi http query db).1 = .error .jsonDecodeError)
    ∧ (∀ xs, http (esearchAccURL db accession) = .ok sresp →
      sresp.jsonVal = some (Json.arr xs) →
      (fetch_from_ncbi http db accession "fasta").1 =
        .error (.attributeError ("object has no attribute " ++ "\x27" ++ "get" ++ "\x27"))) := by
  have hidl : idlistOfSearch (Json.obj sf) = .ok none := by
    simp [idlistOfSearch, pyGet, pyGetOpt, hmiss, Bind.bind, Except.bind, dictLookup]
  refine ⟨fun h hj => ?_, fun h hj => ?_, fun h hj => ?_, fun h hj => ?_, fun xs h hj => ?_⟩
  · simp [fetch_from_ncbi, h, Response.json, hj, hidl, pyTruthyOpt]
  · simp [search_ncbi, h, Response.json, hj, hidl, pyTruthyOpt]
  · simp [fetch_from_ncbi, h, Response.json, hj]
  · simp [search_ncbi, h, Response.json, hj]
  · simp [fetch_from_ncbi, h, Response.json, hj, idlistOfSearch, pyGet, Bind.bind, Except.bind]

set_option maxRecDepth 16384 in
/-- Claim C9: `help` is a fixed constant — by construction it takes no arguments and
performs no I/O (it does not even receive a network environment) — and the
returned string is non-empty and names all four other operations. -/
theorem help_lists_tools :
    help ≠ ""
    ∧ containsName help "get_nucleotide_sequence" = true
    ∧ containsName help "get_protein_sequence" = true
    ∧ containsName help "get_sequence_metadata" = true
    ∧ containsName help "search_ncbi" = true := by
  refine ⟨by decide, by decide, by decide, by decide, by decide⟩

/-- Claim C10: `get_sequence_metadata` forwards `accession` and `db` unchanged to
`fetch_from_ncbi`, selecting return format `"gb"` exactly when `db` is
`"nucleotide"` and `"gp"` for every other `db` value. -/
theorem get_sequence_metadata_rettype (http : Http) (accession db : String)
    (hdb : db ≠ "nucleotide") :
    get_sequence_metadata http accession "nucleotide" =
      fetch_from_ncbi http "nucleotide" accession "gb"
    ∧ get_sequence_metadata http accession db = fetch_from_ncbi http db accession "gp" := by
  constructor
  · simp [get_sequence_metadata]
  · simp [get_sequence_metadata, hdb]

/-- Witness for C1 at a concrete environment: two search hits, one fetch. -/
theorem fetch_from_ncbi_single_fetch_witness :
    fetch_from_ncbi
      (fun u =>
        if u = esearchAccURL "nucleotide" "NM_000546" then
          .ok ⟨200, "", some (Json.obj [("esearchresult",
            Json.obj [("idlist", Json.arr [Json.str "4557871", Json.str "99"])])])⟩
        else .ok ⟨200, "FASTA DATA", none⟩)
      "nucleotide" "NM_000546" "fasta" =
      (.ok "FASTA DATA",
       [esearchAccURL "nucleotide" "NM_000546",
        efetchURL "nucleotide" (String.intercalate "," ["4557871", "99"]) "fasta"]) := by
  exact fetch_from_ncbi_single_fetch _ "nucleotide" "NM_000546" "fasta"
    ⟨200, "", some (Json.obj [("esearchresult",
      Json.obj [("idlist", Json.arr [Json.str "4557871", Json.str "99"])])])⟩
    ⟨200, "FASTA DATA", none⟩
    [("esearchresult", Json.obj [("idlist", Json.arr [Json.str "4557871", Json.str "99"])])]
    [("idlist", Json.arr [Json.str "4557871", Json.str "99"])]
    ["4557871", "99"]
    (by decide) (by rfl) (by rfl) (by rfl) (by rfl) (by rfl)

/-- Witness for C2 at a concrete environment: empty id list. -/
theorem fetch_from_ncbi_not_found_witness :
    fetch_from_ncbi
      (fun _ => .ok ⟨200, "", some (Json.obj [("esearchresult",
        Json.obj [("idlist", Json.arr [])])])⟩)
      "protein" "ZZZ9" "fasta" =
      (.ok ("No " ++ "protein" ++ " record found for accession " ++ "ZZZ9"),
       [esearchAccURL "protein" "ZZZ9"]) := by
  exact fetch_from_ncbi_not_found _ "protein" "ZZZ9" "fasta"
    ⟨200, "", some (Json.obj [("esearchresult", Json.obj [("idlist", Json.arr [])])])⟩
    (Json.obj [("esearchresult", Json.obj [("idlist", Json.arr [])])])
    (some (Json.arr []))
    (by rfl) (by rfl) (by rfl) (by rfl)

/-- Witness for C3 at a concrete environment: one identifier, one segment. -/
theorem search_ncbi_segments_witness :
    search_ncbi
      (fun u =>
        if u = esearchQueryURL "nucleotide" "BRCA1" then
          .ok ⟨200, "", some (Json.obj [("esearchresult",
            Json.obj [("idlist", Json.arr [Json.str "1"])])])⟩
        else .ok ⟨200, "", some (Json.obj [("result",
          Json.obj [("1", Json.obj [("title", Json.str "BRCA1 mRNA")])])])⟩)
      "BRCA1" "nucleotide" =
      (.ok (String.intercalate "\n\n" (["1"].map (processId (Json.obj [("result",
          Json.obj [("1", Json.obj [("title", Json.str "BRCA1 mRNA")])])])))),
       [esearchQueryURL "nucleotide" "BRCA1",
        esummaryURL "nucleotide" (String.intercalate "," ["1"])])
    ∧ (["1"].map (processId (Json.obj [("result",
        Json.obj [("1", Json.obj [("title", Json.str "BRCA1 mRNA")])])]))).length =
        ["1"].length := by
  exact search_ncbi_segments _ "BRCA1" "nucleotide"
    ⟨200, "", some (Json.obj [("esearchresult",
      Json.obj [("idlist", Json.arr [Json.str "1"])])])⟩
    ⟨200, "", some (Json.obj [("result",
      Json.obj [("1", Json.obj [("title", Json.str "BRCA1 mRNA")])])])⟩
    [("esearchresult", Json.obj [("idlist", Json.arr [Json.str "1"])])]
    [("idlist", Json.arr [Json.str "1"])]
    ["1"]
    (Json.obj [("result", Json.obj [("1", Json.obj [("title", Json.str "BRCA1 mRNA")])])])
    (by decide) (by rfl) (by rfl) (by rfl) (by rfl) (by rfl) (by rfl)

/-- Witness for C4 at a concrete environment: the summary JSON lacks
`"result"`, so processing the single identifier raises `KeyError`, rendered
as the inline error segment. -/
theorem search_ncbi_error_isolation_witness :
    (search_ncbi
      (fun u =>
        if u = esearchQueryURL "nucleotide" "p53" then
          .ok ⟨200, "", some (Json.obj [("esearchresult",
            Json.obj [("idlist", Json.arr [Json.str "7"])])])⟩
        else .ok ⟨200, "", some (Json.obj [])⟩)
      "p53" "nucleotide").1 =
      .ok (String.intercalate "\n\n" (["7"].map (processId (Json.obj []))))
    ∧ (["7"].map (processId (Json.obj []))).get ⟨0, by decide⟩ =
        "Error processing ID " ++ ["7"].get ⟨0, by decide⟩ ++ ": "
          ++ errMsg (.keyError "result") := by
  have h := search_ncbi_error_isolation
    (fun u =>
      if u = esearchQueryURL "nucleotide" "p53" then
        .ok ⟨200, "", some (Json.obj [("esearchresult",
          Json.obj [("idlist", Json.arr [Json.str "7"])])])⟩
      else .ok ⟨200, "", some (Json.obj [])⟩)
    "p53" "nucleotide"
    ⟨200, "", some (Json.obj [("esearchresult",
      Json.obj [("idlist", Json.arr [Json.str "7"])])])⟩
    ⟨200, "", some (Json.obj [])⟩
    [("esearchresult", Json.obj [("idlist", Json.arr [Json.str "7"])])]
    [("idlist", Json.arr [Json.str "7"])]
    ["7"] (Json.obj []) 0 (.keyError "result")
    (by decide) (by rfl) (by rfl) (by rfl) (by rfl) (by rfl) (by rfl)
    (by decide) (by rfl)
  exact ⟨h.1, h.2.1⟩

/-- Witness for C5: a record with only a matching `"caption"` field. -/
theorem extractAccession_fallback_witness :
    extractAccession (Json.obj [("caption", Json.str "NM_000546")]) =
      .ok (Json.str "NM_000546") := by
  exact (extractAccession_fallback [("caption", Json.str "NM_000546")] "NM_000546"
    (by rfl)).2 (by rfl) (by decide)

/-- Witness for C6 (amended): a transport failure propagates, and changing
only the status code (200 to 500) leaves the result unchanged. -/
theorem net_errors_propagate_status_never_read_witness :
    fetch_from_ncbi (fun _ => .error "connection refused") "nucleotide" "A1" "fasta" =
      (.error (.netError "connection refused"), [esearchAccURL "nucleotide" "A1"])
    ∧ fetch_from_ncbi (fun _ => .ok ⟨200, "x", none⟩) "nucleotide" "A1" "fasta" =
        fetch_from_ncbi (fun _ => .ok ⟨500, "x", none⟩) "nucleotide" "A1" "fasta" := by
  constructor
  · exact (net_errors_propagate_status_never_read
      (fun _ => .error "connection refused") (fun _ => .error "connection refused")
      "nucleotide" "A1" "fasta" "q" "connection refused" (fun u => rfl)).1 rfl
  · exact (net_errors_propagate_status_never_read
      (fun _ => .ok ⟨200, "x", none⟩) (fun _ => .ok ⟨500, "x", none⟩)
      "nucleotide" "A1" "fasta" "q" "connection refused"
      (fun u => ⟨rfl, rfl⟩)).2.2.2.1

/-- Witness for C7 at a concrete environment: empty id list. -/
theorem search_ncbi_no_results_witness :
    search_ncbi
      (fun _ => .ok ⟨200, "", some (Json.obj [("esearchresult",
        Json.obj [("idlist", Json.arr [])])])⟩)
      "xyzzy" "protein" =
      (.ok ("No results found for " ++ "\x27" ++ "xyzzy" ++ "\x27" ++ " in " ++ "protein"
        ++ " database"),
       [esearchQueryURL "protein" "xyzzy"]) := by
  exact search_ncbi_no_results _ "xyzzy" "protein"
    ⟨200, "", some (Json.obj [("esearchresult", Json.obj [("idlist", Json.arr [])])])⟩
    (Json.obj [("esearchresult", Json.obj [("idlist", Json.arr [])])])
    (some (Json.arr []))
    (by rfl) (by rfl) (by rfl) (by rfl)

/-- Witness for C8 (amended): a search response of `{}` yields both
operations their not-found strings. -/
theorem missing_esearchresult_handled_locally_witness :
    fetch_from_ncbi (fun _ => .ok ⟨200, "\x7b\x7d", some (Json.obj [])⟩)
      "nucleotide" "NM_1" "fasta" =
      (.ok ("No " ++ "nucleotide" ++ " record found for accession " ++ "NM_1"),
       [esearchAccURL "nucleotide" "NM_1"])
    ∧ search_ncbi (fun _ => .ok ⟨200, "\x7b\x7d", some (Json.obj [])⟩) "BRCA" "nucleotide" =
      (.ok ("No results found for " ++ "\x27" ++ "BRCA" ++ "\x27" ++ " in " ++ "nucleotide"
        ++ " database"),
       [esearchQueryURL "nucleotide" "BRCA"]) := by
  have h := missing_esearchresult_handled_locally
    (fun _ => .ok ⟨200, "\x7b\x7d", some (Json.obj [])⟩) "nucleotide" "NM_1" "BRCA"
    ⟨200, "\x7b\x7d", some (Json.obj [])⟩ [] (by rfl)
  exact ⟨h.1 rfl rfl, h.2.1 rfl rfl⟩

/-- Witness for C10: the `"gene"` database selects `"gp"`. -/
theorem get_sequence_metadata_rettype_witness :
    get_sequence_metadata (fun _ => .error "down") "X1" "nucleotide" =
      fetch_from_ncbi (fun _ => .error "down") "nucleotide" "X1" "gb"
    ∧ get_sequence_metadata (fun _ => .error "down") "X1" "gene" =
        fetch_from_ncbi (fun _ => .error "down") "gene" "X1" "gp" := by
  have h := get_sequence_metadata_rettype (fun _ => .error "down") "X1" "gene" (by decide)
  exact ⟨h.1, h.2⟩
